import Mathlib

/-!
Verification of the webcam motion detector (`motion_detector.py`, `main.py`).

The development shallowly embeds the two source files:

* the motion estimator `_calculate_motion` (grayscale conversion via OpenCV's
  fixed-point BT.601 luma weights, `cv2.subtract` saturating subtraction on
  8-bit images, `np.sum`);
* the per-frame recording state machine `process_frame` (threshold test,
  hold-over buffer `_record_buffer`, session start/stop, frame writing);
* the artifact naming scheme `_get_next_filename`;
* the cleanup path `_cleanup` as an event trace;
* the run loop `run` and the process entry point `main` (exit codes).

Machine integers are modelled as `Nat`/`Int`: Python integers are unbounded,
and the 8-bit pixel arithmetic of `cv2.subtract` saturates at 0, which on
values below 256 is exactly truncated `Nat` subtraction.
-/

namespace WebcamMotion

/-! ## Frames and the motion estimator (`_calculate_motion`) -/

/-- A pixel as stored by OpenCV: blue, green, red channel samples (0..255). -/
structure BGR where
  b : Nat
  g : Nat
  r : Nat
deriving DecidableEq

/-- A frame is a 2D grid of BGR pixels. -/
abbrev Frame := List (List BGR)

/-- A single-channel image. -/
abbrev GrayImage := List (List Nat)

/-- OpenCV's BGR→grayscale conversion of one pixel: fixed-point BT.601 luma,
`(b*1868 + g*9617 + r*4899 + 2^13) >> 14` (the coefficients sum to `2^14`). -/
def grayOfBGR (p : BGR) : Nat :=
  (p.b * 1868 + p.g * 9617 + p.r * 4899 + 8192) / 16384

/-- `cv2.cvtColor(frame, cv2.COLOR_BGR2GRAY)`. -/
def cvtColorBGR2GRAY (f : Frame) : GrayImage :=
  f.map (fun row => row.map grayOfBGR)

/-- `cv2.subtract` on 8-bit single-channel images: per-pixel subtraction
saturating at 0, which for channel values is truncated `Nat` subtraction. -/
def cv2subtract (a b : GrayImage) : GrayImage :=
  List.zipWith (fun ra rb => List.zipWith (fun x y => x - y) ra rb) a b

/-- `np.sum` over a single-channel image. -/
def npsum (img : GrayImage) : Nat :=
  (img.map List.sum).sum

/-- `MotionDetector._calculate_motion`: grayscale both frames, take the
saturating difference `current − last`, and sum it.  Returns the score
(the difference image is `cv2subtract` itself). -/
def calculate_motion (last_frame frame : Frame) : Nat :=
  npsum (cv2subtract (cvtColorBGR2GRAY frame) (cvtColorBGR2GRAY last_frame))

/-- Two frames have the same dimensions: same row count, rows pairwise of the
same length. -/
def SameDims (a c : Frame) : Prop :=
  List.Forall₂ (fun r s => r.length = s.length) a c

/-! ## The recording controller (`process_frame` and helpers)

The controller state keeps the fields of `MotionDetector` that the per-frame
state machine reads and writes: `_record_buffer` (a Python `int`, so an
unbounded `Int`), `_is_recording`, and whether `_writer` is not `None`.
To make session accounting provable we additionally count every
`cv2.VideoWriter` construction (`opened_total`), every release of an open
writer (`closed_total`), the number of currently open writers (`open_count`),
and the frames appended (`frames_written`); these counters are ghost
observations of the underlying `VideoWriter` calls. -/

/-- The session-relevant mutable state of `MotionDetector`. -/
structure CState where
  record_buffer : Int
  is_recording : Bool
  writerOpen : Bool
  open_count : Nat
  opened_total : Nat
  closed_total : Nat
  frames_written : Nat
deriving DecidableEq

/-- The state right after `__init__`: `_record_buffer = 0`,
`_is_recording = False`, `_writer = None`. -/
def initState : CState :=
  { record_buffer := 0, is_recording := false, writerOpen := false,
    open_count := 0, opened_total := 0, closed_total := 0, frames_written := 0 }

/-- The configuration fields of `MotionDetector` the state machine reads. -/
structure Config where
  threshold : Int
  record_buffer_frames : Int
deriving DecidableEq

/-- `MotionDetector._start_recording`: release the old writer if any (closing
its artifact), open a fresh `cv2.VideoWriter`, set `_is_recording = True`. -/
def start_recording (st : CState) : CState :=
  let st1 := if st.writerOpen then
      { st with closed_total := st.closed_total + 1, open_count := st.open_count - 1 }
    else st
  { st1 with writerOpen := true, is_recording := true,
             opened_total := st1.opened_total + 1, open_count := st1.open_count + 1 }

/-- `MotionDetector._stop_recording`: release the writer if any and set it to
`None`, set `_is_recording = False`. -/
def stop_recording (st : CState) : CState :=
  let st1 := if st.writerOpen then
      { st with closed_total := st.closed_total + 1, open_count := st.open_count - 1,
                writerOpen := false }
    else st
  { st1 with is_recording := false }

/-- The body of `MotionDetector.process_frame` after the motion score has been
computed: threshold test, buffer update, session start/stop, conditional
write.  Returns the new state and the returned `motion_detected` boolean. -/
def process_score (cfg : Config) (st : CState) (motion : Int) : CState × Bool :=
  let motion_detected : Bool := decide (cfg.threshold < motion)
  let st1 :=
    if motion_detected then
      let st2 := if st.is_recording then st else start_recording st
      { st2 with record_buffer := cfg.record_buffer_frames }
    else
      let st2 := { st with record_buffer := st.record_buffer - 1 }
      if decide (st2.record_buffer ≤ 0) && st2.is_recording then stop_recording st2 else st2
  let is_moving : Bool := decide (0 < st1.record_buffer)
  let st3 := if is_moving && st1.writerOpen then
      { st1 with frames_written := st1.frames_written + 1 }
    else st1
  (st3, motion_detected)

/-- The state-transition part of `process_score`. -/
def stepState (cfg : Config) (st : CState) (motion : Int) : CState :=
  (process_score cfg st motion).1

/-- Controller state plus the retained previous frame (`_last_frame`). -/
structure FState where
  core : CState
  last_frame : Frame

/-- `MotionDetector.process_frame` at frame level: compute the score with
`_calculate_motion`, run the state machine on it, store the frame as
`_last_frame`, and return `motion_detected`. -/
def process_frame (cfg : Config) (st : FState) (frame : Frame) : FState × Bool :=
  let motion : Int := (calculate_motion st.last_frame frame : Nat)
  let r := process_score cfg st.core motion
  ({ core := r.1, last_frame := frame }, r.2)

/-- Run the state machine over a scripted list of motion scores, starting from
a fresh controller. -/
def runScores (cfg : Config) (scores : List Int) : CState :=
  scores.foldl (stepState cfg) initState

/-- Whether the frame of step `i` (0-based) is written to the artifact:
`process_frame` evaluates `is_moving = _record_buffer > 0` and writes when
additionally `_writer is not None`, both on the state as updated by step `i`. -/
def writingAt (cfg : Config) (scores : List Int) (i : Nat) : Bool :=
  let st := runScores cfg (scores.take (i + 1))
  decide (0 < st.record_buffer) && st.writerOpen

/-- States reachable from a fresh controller by `process_frame` calls (the
controller's only per-frame operation), at score level. -/
inductive Reachable (cfg : Config) : CState → Prop where
  | init : Reachable cfg initState
  | step : ∀ {st : CState} (s : Int), Reachable cfg st → Reachable cfg (stepState cfg st s)

/-! ## Artifact naming (`_get_next_filename`) -/

/-- Python's `str.endswith`: the argument is a suffix of the string. -/
def endswith (s suffixArg : String) : Bool :=
  decide (suffixArg.data <:+ s.data)

/-- Python's `f"{n:04d}"`: decimal digits, zero-padded on the left to at
least four characters. -/
def format04 (n : Nat) : String :=
  let s := toString n
  String.mk (List.replicate (4 - s.length) '0') ++ s

/-- `os.path.join` for a directory and a plain file name (POSIX). -/
def path_join (dir file : String) : String :=
  dir ++ "/" ++ file

/-- `MotionDetector._get_next_filename`: count the directory entries ending in
`.avi` and name the new artifact `recording_NNNN.avi` with that count. -/
def get_next_filename (output_dir : String) (listing : List String) : String :=
  let existing := listing.filter (fun f => endswith f ".avi")
  path_join output_dir ("recording_" ++ format04 existing.length ++ ".avi")

/-! ## Cleanup (`_cleanup`) as an event trace -/

/-- Externally visible release events of `_cleanup`. -/
inductive Ev where
  | releaseCapture
  | releaseWriter
  | destroyAllWindows
deriving DecidableEq

/-- `MotionDetector._cleanup`: release the capture device if present, then
release the writer if present, then destroy the preview windows. -/
def cleanup_trace (videoSome writerSome : Bool) : List Ev :=
  (if videoSome then [Ev.releaseCapture] else []) ++
    (if writerSome then [Ev.releaseWriter] else []) ++ [Ev.destroyAllWindows]

/-! ## The run loop (`run`) and the entry point (`main`) -/

/-- `MotionDetector.run` at score level: each element of `reads` is one
`self._video.read()` result, `some s` a frame whose motion score is `s`,
`none` a failed read.  A failed read prints an error and breaks out of the
loop; the end of the list models the user quitting. -/
def runLoop (cfg : Config) (st : CState) : List (Option Int) → CState
  | [] => st
  | none :: _ => st
  | some s :: rest => runLoop cfg (stepState cfg st s) rest

/-- `MotionDetector._setup`: fails with a `RuntimeError` when the camera does
not open or the initial frame read fails. -/
def setup_result (camera_opens first_read : Bool) : Except String Unit :=
  if camera_opens = false then Except.error "Could not open camera"
  else if first_read = false then Except.error "Could not read from camera"
  else Except.ok ()

/-- Outcome of one process run. -/
structure MainResult where
  exitCode : Nat
  cleanupRan : Bool
  errOut : List String
  finalState : CState
deriving DecidableEq

/-- `main` of `main.py`: enter the context manager (running `_setup`; if it
raises, `__exit__`/`_cleanup` does not run, the `RuntimeError` is caught, a
message goes to stderr and the exit code is 1), otherwise run the loop, run
`_cleanup` on exit of the `with` block, and return 0. -/
def mainModel (cfg : Config) (camera_opens first_read : Bool)
    (reads : List (Option Int)) : MainResult :=
  match setup_result camera_opens first_read with
  | Except.error e =>
      { exitCode := 1, cleanupRan := false, errOut := ["Error: " ++ e],
        finalState := initState }
  | Except.ok _ =>
      { exitCode := 0, cleanupRan := true, errOut := [],
        finalState := runLoop cfg initState reads }

/-- The end-to-end scenario configuration of the spec: threshold 1000,
hold-over 2. -/
def scenarioCfg : Config := { threshold := 1000, record_buffer_frames := 2 }

/-- The end-to-end scenario score script. -/
def scenarioScores : List Int := [0, 2000, 0, 0, 0]

/-! ## Lemmas -/

/-- A row's zero-clamped difference sums to 0 exactly when every entry of the
first row is at most the matching entry of the second. -/
lemma sum_zipWith_sub_eq_zero : ∀ {a b : List Nat}, a.length = b.length →
    ((List.zipWith (fun x y => x - y) a b).sum = 0 ↔
      List.Forall₂ (fun x y => x ≤ y) a b)
  | [], [], _ => by simp
  | [], _ :: _, h => by simp at h
  | _ :: _, [], h => by simp at h
  | x :: a, y :: b, h => by
    simp only [List.length_cons, Nat.succ.injEq] at h
    simp only [List.zipWith_cons_cons, List.sum_cons, Nat.add_eq_zero,
      List.forall₂_cons, Nat.sub_eq_zero_iff_le]
    exact and_congr_right fun _ => sum_zipWith_sub_eq_zero h

/-- Image-level version: the summed `cv2.subtract` difference of two
same-shaped single-channel images is 0 exactly when the first is pointwise
at most the second. -/
lemma npsum_cv2subtract_eq_zero {A B : GrayImage}
    (h : List.Forall₂ (fun r s => r.length = s.length) A B) :
    npsum (cv2subtract A B) = 0 ↔
      List.Forall₂ (List.Forall₂ (fun x y => x ≤ y)) A B := by
  induction h with
  | nil => simp [npsum, cv2subtract]
  | cons hr _ ih =>
    rename_i r s A' B' _
    simp only [cv2subtract, List.zipWith_cons_cons, npsum, List.map_cons,
      List.sum_cons, Nat.add_eq_zero, List.forall₂_cons]
    exact and_congr (sum_zipWith_sub_eq_zero hr) ih

/-- Grayscale conversion preserves the shape relation between two frames. -/
lemma cvt_sameDims {a c : Frame} (h : SameDims a c) :
    List.Forall₂ (fun r s => r.length = s.length)
      (cvtColorBGR2GRAY a) (cvtColorBGR2GRAY c) := by
  unfold cvtColorBGR2GRAY
  rw [List.forall₂_map_left_iff, List.forall₂_map_right_iff]
  simpa using h

@[simp] lemma start_recording_record_buffer (st : CState) :
    (start_recording st).record_buffer = st.record_buffer := by
  simp only [start_recording]
  repeat' split
  all_goals rfl

@[simp] lemma start_recording_is_recording (st : CState) :
    (start_recording st).is_recording = true := rfl

@[simp] lemma start_recording_writerOpen (st : CState) :
    (start_recording st).writerOpen = true := rfl

@[simp] lemma start_recording_open_count (st : CState) :
    (start_recording st).open_count =
      (if st.writerOpen then st.open_count - 1 else st.open_count) + 1 := by
  simp only [start_recording]
  repeat' split
  all_goals simp_all

@[simp] lemma start_recording_opened_total (st : CState) :
    (start_recording st).opened_total = st.opened_total + 1 := by
  simp only [start_recording]
  repeat' split
  all_goals rfl

@[simp] lemma start_recording_closed_total (st : CState) :
    (start_recording st).closed_total =
      if st.writerOpen then st.closed_total + 1 else st.closed_total := by
  simp only [start_recording]
  repeat' split
  all_goals simp_all

@[simp] lemma start_recording_frames_written (st : CState) :
    (start_recording st).frames_written = st.frames_written := by
  simp only [start_recording]
  repeat' split
  all_goals rfl

@[simp] lemma stop_recording_record_buffer (st : CState) :
    (stop_recording st).record_buffer = st.record_buffer := by
  simp only [stop_recording]
  repeat' split
  all_goals rfl

@[simp] lemma stop_recording_is_recording (st : CState) :
    (stop_recording st).is_recording = false := rfl

@[simp] lemma stop_recording_writerOpen (st : CState) :
    (stop_recording st).writerOpen = false := by
  simp only [stop_recording]
  repeat' split
  all_goals simp_all

@[simp] lemma stop_recording_open_count (st : CState) :
    (stop_recording st).open_count =
      if st.writerOpen then st.open_count - 1 else st.open_count := by
  simp only [stop_recording]
  repeat' split
  all_goals simp_all

@[simp] lemma stop_recording_opened_total (st : CState) :
    (stop_recording st).opened_total = st.opened_total := by
  simp only [stop_recording]
  repeat' split
  all_goals rfl

@[simp] lemma stop_recording_closed_total (st : CState) :
    (stop_recording st).closed_total =
      if st.writerOpen then st.closed_total + 1 else st.closed_total := by
  simp only [stop_recording]
  repeat' split
  all_goals simp_all

@[simp] lemma stop_recording_frames_written (st : CState) :
    (stop_recording st).frames_written = st.frames_written := by
  simp only [stop_recording]
  repeat' split
  all_goals rfl

lemma stepState_record_buffer (cfg : Config) (st : CState) (s : Int) :
    (stepState cfg st s).record_buffer =
      if cfg.threshold < s then cfg.record_buffer_frames else st.record_buffer - 1 := by
  by_cases h : cfg.threshold < s <;>
    simp only [stepState, process_score, h, decide_eq_true_eq, if_true, if_false,
      decide_eq_false_iff_not, not_false_iff, not_lt] <;>
    repeat' split
  all_goals simp_all

def Inv (cfg : Config) (st : CState) : Prop :=
  st.writerOpen = st.is_recording ∧
  st.open_count = (if st.writerOpen then 1 else 0) ∧
  (0 < st.record_buffer → st.writerOpen = true) ∧
  st.record_buffer ≤ max cfg.record_buffer_frames 0

lemma inv_init (cfg : Config) : Inv cfg initState := by
  simp [Inv, initState]

lemma inv_step {cfg : Config} {st : CState} (s : Int) (h : Inv cfg st) :
    Inv cfg (stepState cfg st s) := by
  obtain ⟨h1, h2, h3, h4⟩ := h
  by_cases hm : cfg.threshold < s <;>
    simp only [Inv, stepState, process_score, hm, decide_eq_true_eq, if_true, if_false,
      decide_eq_false_iff_not, not_false_iff, not_lt] <;>
    repeat' split
  all_goals simp_all
  all_goals omega

lemma runScores_inv (cfg : Config) (scores : List Int) :
    Inv cfg (runScores cfg scores) := by
  suffices h : ∀ st, Inv cfg st → Inv cfg (scores.foldl (stepState cfg) st) from
    h initState (inv_init cfg)
  induction scores with
  | nil => exact fun st hst => hst
  | cons a rest ih => exact fun st hst => ih _ (inv_step a hst)

lemma reachable_inv {cfg : Config} {st : CState} (h : Reachable cfg st) : Inv cfg st := by
  induction h with
  | init => exact inv_init cfg
  | step s _ ih => exact inv_step s ih

lemma runScores_append (cfg : Config) (scores : List Int) (x : Int) :
    runScores cfg (scores ++ [x]) = stepState cfg (runScores cfg scores) x := by
  simp [runScores, List.foldl_append]

lemma record_buffer_char (cfg : Config) (l : List Int) : ∀ (c : Int), 0 ≤ c →
    (c < (runScores cfg l).record_buffer ↔
      ∃ j, j < l.length ∧ cfg.threshold < l.getD j 0 ∧
        (l.length : Int) - 1 - (j : Int) + c < cfg.record_buffer_frames) := by
  induction l using List.reverseRecOn with
  | nil =>
    intro c hc
    constructor
    · intro h
      have : (runScores cfg []).record_buffer = 0 := rfl
      omega
    · rintro ⟨j, hj, -, -⟩
      exact absurd hj (by simp)
  | append_singleton l x ih =>
    intro c hc
    rw [runScores_append, stepState_record_buffer]
    by_cases hx : cfg.threshold < x
    · rw [if_pos hx]
      constructor
      · intro h
        refine ⟨l.length, by simp, ?_, ?_⟩
        · rwa [List.getD_append_right l [x] 0 l.length (le_refl _), Nat.sub_self, List.getD_cons_zero]
        · simp only [List.length_append, List.length_cons, List.length_nil]
          push_cast
          omega
      · rintro ⟨j, hj, -, hlt⟩
        simp only [List.length_append, List.length_cons, List.length_nil] at hj hlt
        have hj2 : (j : Int) ≤ (l.length : Int) := by exact_mod_cast Nat.lt_succ_iff.mp hj
        push_cast at hlt
        omega
    · rw [if_neg hx]
      have step : (c < (runScores cfg l).record_buffer - 1) ↔ (c + 1 < (runScores cfg l).record_buffer) := by
        omega
      rw [step, ih (c + 1) (by omega)]
      constructor
      · rintro ⟨j, hj, ht, hlt⟩
        refine ⟨j, by simp; omega, ?_, ?_⟩
        · rwa [List.getD_append _ _ _ _ hj]
        · simp only [List.length_append, List.length_cons, List.length_nil]
          push_cast at hlt ⊢
          omega
      · rintro ⟨j, hj, ht, hlt⟩
        simp only [List.length_append, List.length_cons, List.length_nil] at hj hlt
        rcases Nat.lt_succ_iff_lt_or_eq.mp hj with hj2 | hj2
        · refine ⟨j, hj2, by rwa [List.getD_append _ _ _ _ hj2] at ht, ?_⟩
          push_cast at hlt ⊢
          omega
        · subst hj2
          rw [List.getD_append_right l [x] 0 l.length (le_refl _), Nat.sub_self, List.getD_cons_zero] at ht
          exact absurd ht hx

lemma getD_take (l : List Int) (n j : Nat) (h : j < n) :
    (l.take n).getD j 0 = l.getD j 0 := by
  simp [List.getD_eq_getElem?_getD, List.getElem?_take, h]

/-- Claim C2 (confirmed): for every scripted sequence of motion scores, every
threshold and every hold-over count, starting from a fresh controller, the
frame of step `i` is written to the artifact exactly when some step `j ≤ i`
had a score strictly above the threshold and `i - j` is less than the
hold-over count. -/
theorem writing_iff_recent_motion (cfg : Config) (scores : List Int) (i : Nat)
    (hi : i < scores.length) :
    writingAt cfg scores i = true ↔
      ∃ j ≤ i, cfg.threshold < scores.getD j 0 ∧
        (i : Int) - (j : Int) < cfg.record_buffer_frames := by
  have hlen : (scores.take (i + 1)).length = i + 1 := by
    simp [List.length_take]
    omega
  have hbuf : writingAt cfg scores i = true ↔
      0 < (runScores cfg (scores.take (i + 1))).record_buffer := by
    unfold writingAt
    obtain ⟨-, -, h3, -⟩ := runScores_inv cfg (scores.take (i + 1))
    constructor
    · intro h
      simp only [Bool.and_eq_true, decide_eq_true_eq] at h
      exact h.1
    · intro h
      simp [h, h3 h]
  rw [hbuf, record_buffer_char cfg _ 0 (le_refl 0)]
  constructor
  · rintro ⟨j, hj, ht, hlt⟩
    rw [hlen] at hj hlt
    refine ⟨j, by omega, by rwa [getD_take _ _ _ hj] at ht, ?_⟩
    push_cast at hlt ⊢
    omega
  · rintro ⟨j, hj, ht, hlt⟩
    have hj2 : j < i + 1 := by omega
    refine ⟨j, by omega, by rwa [getD_take _ _ _ hj2], ?_⟩
    rw [hlen]
    push_cast at hlt ⊢
    omega



theorem writing_iff_recent_motion_witness :
    writingAt { threshold := 1, record_buffer_frames := 2 } [2] 0 = true :=
  (writing_iff_recent_motion { threshold := 1, record_buffer_frames := 2 } [2] 0
    (by decide)).mpr ⟨0, le_refl 0, by decide, by decide⟩

/-- Claim C1 counterexample: `_calculate_motion` is not the summed absolute
difference.  For the same-dimension pair white-then-black, `cv2.subtract`
clamps every pixel difference to 0, so the score is 0 although the grayscale
frames differ, and swapping the frames gives score 255 (not symmetric). -/
theorem motion_absdiff_counterexample :
    SameDims [[⟨255, 255, 255⟩]] [[⟨0, 0, 0⟩]] ∧
    calculate_motion [[⟨255, 255, 255⟩]] [[⟨0, 0, 0⟩]] = 0 ∧
    cvtColorBGR2GRAY [[⟨0, 0, 0⟩]] ≠ cvtColorBGR2GRAY [[⟨255, 255, 255⟩]] ∧
    calculate_motion [[⟨0, 0, 0⟩]] [[⟨255, 255, 255⟩]] = 255 :=
  ⟨List.Forall₂.cons rfl List.Forall₂.nil, by decide, by decide, by decide⟩

/-- Claim C1 (amended): for same-dimension frames the motion estimate is the
sum over all pixels of the zero-clamped (one-sided saturating) difference
`gray(current) − gray(previous)`; it is 0 exactly when no pixel of the
grayscale current frame exceeds the grayscale previous frame. -/
theorem motion_zero_iff_pointwise_le (last_frame frame : Frame)
    (h : SameDims last_frame frame) :
    calculate_motion last_frame frame = 0 ↔
      List.Forall₂ (List.Forall₂ (fun c l => c ≤ l))
        (cvtColorBGR2GRAY frame) (cvtColorBGR2GRAY last_frame) := by
  have h2 : SameDims frame last_frame :=
    List.Forall₂.imp (fun a b hab => hab.symm) h.flip
  exact npsum_cv2subtract_eq_zero (cvt_sameDims h2)

theorem motion_zero_iff_pointwise_le_witness :
    calculate_motion [[⟨1, 2, 3⟩]] [[⟨1, 2, 3⟩]] = 0 ↔
      List.Forall₂ (List.Forall₂ (fun c l => c ≤ l))
        (cvtColorBGR2GRAY [[⟨1, 2, 3⟩]]) (cvtColorBGR2GRAY [[⟨1, 2, 3⟩]]) :=
  motion_zero_iff_pointwise_le _ _ (List.Forall₂.cons rfl List.Forall₂.nil)

/-- Claim C3 counterexample: in the scenario (threshold 1000, hold-over 2,
scores `[0, 2000, 0, 0, 0]`) the frame of step 3 is NOT written: step 3
decrements the buffer from 1 to 0 and closes the session before the write
check, so recording is active at steps 1 and 2 only. -/
theorem scenario_step3_not_written :
    writingAt scenarioCfg scenarioScores 3 = false := by decide

/-- Claim C3 (amended): with threshold 1000 and hold-over 2, scores
`[0, 2000, 0, 0, 0]` give frames written at steps 1 and 2 and not at steps
0, 3 and 4, with exactly one session opened and then closed over the run. -/
theorem scenario_trace_amended :
    writingAt scenarioCfg scenarioScores 0 = false ∧
    writingAt scenarioCfg scenarioScores 1 = true ∧
    writingAt scenarioCfg scenarioScores 2 = true ∧
    writingAt scenarioCfg scenarioScores 3 = false ∧
    writingAt scenarioCfg scenarioScores 4 = false ∧
    (runScores scenarioCfg scenarioScores).opened_total = 1 ∧
    (runScores scenarioCfg scenarioScores).closed_total = 1 ∧
    (runScores scenarioCfg scenarioScores).open_count = 0 := by decide

/-- Claim C4 counterexample: the hold-over counter is NOT always
non-negative: a single below-threshold frame decrements it from 0 to −1. -/
theorem record_buffer_negative_counterexample :
    ¬ (0 ≤ (runScores { threshold := 1000, record_buffer_frames := 2 } [0]).record_buffer) := by
  decide

/-- Claim C4 (amended): the hold-over counter starts at 0 and is an integer
that may go negative during idle periods; in every state reachable by
`process_frame` calls it never exceeds `max record_buffer_frames 0`. -/
theorem record_buffer_upper_bound (cfg : Config) (scores : List Int) :
    initState.record_buffer = 0 ∧
    (runScores cfg scores).record_buffer ≤ max cfg.record_buffer_frames 0 :=
  ⟨rfl, (runScores_inv cfg scores).2.2.2⟩

/-- Claim C5 counterexample: `_cleanup` releases the capture device BEFORE the
writer, so with both resources open the writer is released strictly later,
contradicting the claimed ordering. -/
theorem cleanup_order_counterexample :
    Ev.releaseWriter ∈ cleanup_trace true true ∧
    ¬ (List.indexOf Ev.releaseWriter (cleanup_trace true true) ≤
        List.indexOf Ev.releaseCapture (cleanup_trace true true)) := by decide

/-- Claim C5 (amended): on shutdown an open session's writer is always
released by `_cleanup` (no dangling artifact), but after the capture device
has been released, not before: the trace with both resources open is
capture release, then writer release, then window destruction. -/
theorem cleanup_releases_writer_after_capture :
    (∀ videoSome : Bool, Ev.releaseWriter ∈ cleanup_trace videoSome true) ∧
    cleanup_trace true true = [Ev.releaseCapture, Ev.releaseWriter, Ev.destroyAllWindows] :=
  ⟨fun v => by cases v <;> decide, by decide⟩

/-- Claim C6 (confirmed): in every state reachable from a fresh controller by
`process_frame` calls, at most one recording session is open, and the writer
handle is present exactly when `_is_recording` is true. -/
theorem at_most_one_session_and_writer_iff_recording (cfg : Config) (st : CState)
    (h : Reachable cfg st) :
    st.open_count ≤ 1 ∧ (st.writerOpen = true ↔ st.is_recording = true) := by
  obtain ⟨h1, h2, -, -⟩ := reachable_inv h
  refine ⟨?_, by rw [h1]⟩
  rw [h2]
  split <;> simp

theorem at_most_one_session_and_writer_iff_recording_witness :
    (stepState { threshold := 1000, record_buffer_frames := 2 } initState 2000).open_count ≤ 1 ∧
    ((stepState { threshold := 1000, record_buffer_frames := 2 } initState 2000).writerOpen = true ↔
      (stepState { threshold := 1000, record_buffer_frames := 2 } initState 2000).is_recording = true) :=
  at_most_one_session_and_writer_iff_recording _ _ (Reachable.step 2000 Reachable.init)

/-- Every string obtained by appending `.avi` passes the `.avi` filter. -/
lemma endswith_append_avi (a : String) : endswith (a ++ ".avi") ".avi" = true := by
  simp only [endswith, String.data_append, decide_eq_true_eq]
  exact List.suffix_append _ _

/-- Claim C7 (confirmed): when a session opens over a directory holding `k`
matching artifacts, the new artifact is `recording_{k:04d}.avi`; an empty
directory yields index 0; and once the new artifact exists in the listing the
matching count becomes `k + 1`, so numbering is sequential and existing files
are never renumbered. -/
theorem next_filename_indexed_by_avi_count (dir : String) (listing : List String) (k : Nat)
    (h : (listing.filter (fun f => endswith f ".avi")).length = k) :
    get_next_filename dir listing = path_join dir ("recording_" ++ format04 k ++ ".avi") ∧
    get_next_filename dir [] = path_join dir ("recording_" ++ format04 0 ++ ".avi") ∧
    ((("recording_" ++ format04 k ++ ".avi") :: listing).filter
        (fun f => endswith f ".avi")).length = k + 1 := by
  refine ⟨by simp [get_next_filename, h], rfl, ?_⟩
  simp [List.filter_cons, endswith_append_avi, h]

theorem next_filename_indexed_by_avi_count_witness :
    get_next_filename "output_files" ["recording_0000.avi", "notes.txt"] =
      path_join "output_files" ("recording_" ++ format04 1 ++ ".avi") ∧
    get_next_filename "output_files" [] =
      path_join "output_files" ("recording_" ++ format04 0 ++ ".avi") ∧
    ((("recording_" ++ format04 1 ++ ".avi") :: ["recording_0000.avi", "notes.txt"]).filter
        (fun f => endswith f ".avi")).length = 1 + 1 :=
  next_filename_indexed_by_avi_count "output_files" ["recording_0000.avi", "notes.txt"] 1
    (by decide)

/-- Claim C8 (confirmed): `process_frame` returns exactly the strict
comparison of the computed score against the threshold, whatever the
hold-over/writing state; a score equal to the threshold is not motion. -/
theorem process_frame_returns_strict_threshold_test (cfg : Config) (st : FState) (f : Frame) :
    (process_frame cfg st f).2 =
      decide (cfg.threshold < ((calculate_motion st.last_frame f : Nat) : Int)) ∧
    ∀ st2 : CState, (process_score cfg st2 cfg.threshold).2 = false := by
  refine ⟨rfl, fun st2 => ?_⟩
  simp [process_score]

/-- Breaking out of the run loop: a failed read stops processing, ignoring
any later reads. -/
lemma runLoop_break (cfg : Config) : ∀ (pre : List (Option Int)) (st : CState)
    (post : List (Option Int)), (∀ x ∈ pre, x ≠ none) →
    runLoop cfg st (pre ++ none :: post) = runLoop cfg st pre := by
  intro pre
  induction pre with
  | nil => intro st post h; rfl
  | cons a rest ih =>
    intro st post h
    match a with
    | none => exact absurd rfl (h none (List.mem_cons_self _ _))
    | some s =>
      simp only [List.cons_append, runLoop]
      exact ih _ _ (fun x hx => h x (List.mem_cons_of_mem _ hx))

/-- Claim C9 (confirmed): a failed frame read mid-run ends the loop at that
point (later reads are ignored), cleanup still runs and the process exits
with code 0; a setup failure (camera unopenable or first frame unreadable)
aborts before the loop with exit code 1, a message on stderr, and no cleanup
(the context manager body is never entered). -/
theorem read_failure_graceful_setup_failure_fatal (cfg : Config)
    (pre post : List (Option Int)) (h : ∀ x ∈ pre, x ≠ none)
    (cam fr : Bool) (hfail : cam = false ∨ fr = false) :
    (mainModel cfg true true (pre ++ none :: post)).exitCode = 0 ∧
    (mainModel cfg true true (pre ++ none :: post)).cleanupRan = true ∧
    (mainModel cfg true true (pre ++ none :: post)).finalState = runLoop cfg initState pre ∧
    (mainModel cfg cam fr (pre ++ none :: post)).exitCode = 1 ∧
    (mainModel cfg cam fr (pre ++ none :: post)).cleanupRan = false ∧
    (mainModel cfg cam fr (pre ++ none :: post)).errOut ≠ [] := by
  have hbreak := runLoop_break cfg pre initState post h
  have hok : mainModel cfg true true (pre ++ none :: post) =
      { exitCode := 0, cleanupRan := true, errOut := [],
        finalState := runLoop cfg initState pre } := by
    simp [mainModel, setup_result, hbreak]
  have hsetup : ∃ e, setup_result cam fr = Except.error e := by
    rcases hfail with h1 | h1 <;> subst h1
    · exact ⟨_, rfl⟩
    · cases cam
      · exact ⟨_, rfl⟩
      · exact ⟨_, rfl⟩
  obtain ⟨e, he⟩ := hsetup
  refine ⟨by rw [hok], by rw [hok], by rw [hok], ?_, ?_, ?_⟩ <;> simp [mainModel, he]

theorem read_failure_graceful_setup_failure_fatal_witness :
    (mainModel { threshold := 1000, record_buffer_frames := 2 } true true
        ([some 2000] ++ none :: [some 0])).exitCode = 0 ∧
    (mainModel { threshold := 1000, record_buffer_frames := 2 } true true
        ([some 2000] ++ none :: [some 0])).cleanupRan = true ∧
    (mainModel { threshold := 1000, record_buffer_frames := 2 } true true
        ([some 2000] ++ none :: [some 0])).finalState =
      runLoop { threshold := 1000, record_buffer_frames := 2 } initState [some 2000] ∧
    (mainModel { threshold := 1000, record_buffer_frames := 2 } false true
        ([some 2000] ++ none :: [some 0])).exitCode = 1 ∧
    (mainModel { threshold := 1000, record_buffer_frames := 2 } false true
        ([some 2000] ++ none :: [some 0])).cleanupRan = false ∧
    (mainModel { threshold := 1000, record_buffer_frames := 2 } false true
        ([some 2000] ++ none :: [some 0])).errOut ≠ [] :=
  read_failure_graceful_setup_failure_fatal { threshold := 1000, record_buffer_frames := 2 }
    [some 2000] [some 0] (by decide) false true (Or.inl rfl)

/-- Claim C10 (confirmed): only names ending in `.avi` count toward the
sequential index: inserting or removing a non-`.avi` entry anywhere in the
listing never changes the next session's filename. -/
theorem next_filename_ignores_non_avi (dir : String) (l1 l2 : List String) (f : String)
    (h : endswith f ".avi" = false) :
    get_next_filename dir (l1 ++ f :: l2) = get_next_filename dir (l1 ++ l2) := by
  simp [get_next_filename, List.filter_append, List.filter_cons, h]

theorem next_filename_ignores_non_avi_witness :
    get_next_filename "output_files" (["recording_0000.avi"] ++ "notes.txt" :: []) =
      get_next_filename "output_files" (["recording_0000.avi"] ++ []) :=
  next_filename_ignores_non_avi "output_files" ["recording_0000.avi"] [] "notes.txt" (by decide)

end WebcamMotion
